import Mathlib

/-!
Verification of `src/examples/additional-dependencies/main.c`.

The program is embedded shallowly: C strings become `List Char` (the
characters before the terminating NUL), the file system becomes an
`Option (List Char)` (the target file's content when it exists), and the
observable behavior of a run becomes a pure record of stdout, stderr,
exit code, file-system state after the run, and a trace of file-handle
events.  The embedding covers the defined-behavior fragment of the C
program (invocation paths that fit the 1024-byte buffer); the unguarded
overflow of that buffer is modelled separately by counting the bytes the
copy writes.
-/

/-- Embeds `parent_dir` (main.c lines 4-9): `strrchr(path, '/')` finds the
last `'/'`; when present the string is truncated there (the `'/'` is
overwritten with NUL), otherwise the string is left unchanged. -/
def parent_dir : List Char → List Char
  | [] => []
  | c :: rest =>
    if ('/') ∈ rest then c :: parent_dir rest
    else if c = '/' then []
    else c :: parent_dir rest

/-- Embeds `get_runtime_dir` (main.c lines 11-13): `strcpy` the invocation
path into the buffer, then `parent_dir` in place.  The result is the
buffer content after the call. -/
def get_runtime_dir (argv0 : List Char) : List Char :=
  parent_dir argv0

/-- `sizeof(path_buffer)` = `sizeof(example_buffer)` = 1024 (main.c line 33). -/
def PATH_BUFFER_SIZE : Nat := 1024

/-- Bytes stored by the `strcpy(buffer, argv[0])` in `get_runtime_dir`
(main.c line 12): `strcpy` stores `strlen(src) + 1` bytes.  The
`buffer_size` parameter is received by `get_runtime_dir` but never
consulted, so the count does not depend on it. -/
def get_runtime_dir_bytes_written (argv0 : List Char) (buffer_size : Nat) : Nat :=
  argv0.length + 1

/-- Embeds `snprintf(example_buffer, sizeof(example_buffer), "%s/example.txt",
path_buffer)` (main.c line 36): the formatted string is stored truncated
to at most 1023 characters plus the NUL terminator. -/
def build_example_path (dir : List Char) : List Char :=
  (dir ++ ("/example.txt").toList).take (PATH_BUFFER_SIZE - 1)

/-- One `fgets(line, 256, file)` call (main.c line 20): consume at most 255
characters from the remaining input, stopping after a newline; returns the
chunk read and the remaining input. -/
def fgets_chunk : Nat → List Char → List Char × List Char
  | _, [] => ([], [])
  | 0, l => ([], l)
  | n + 1, c :: rest =>
    if c = '\n' then ([c], rest)
    else
      let p := fgets_chunk n rest
      (c :: p.1, p.2)

theorem fgets_chunk_append (n : Nat) (l : List Char) :
    (fgets_chunk n l).1 ++ (fgets_chunk n l).2 = l := by
  induction l generalizing n with
  | nil => cases n <;> rfl
  | cons c rest ih =>
    cases n with
    | zero => rfl
    | succ n =>
      by_cases h : c = '\n'
      · simp [fgets_chunk, h]
      · simp [fgets_chunk, h, ih n]

theorem fgets_chunk_fst_ne_nil (n : Nat) (l : List Char) (hl : l ≠ [])
    (hn : 0 < n) : (fgets_chunk n l).1 ≠ [] := by
  cases l with
  | nil => exact absurd rfl hl
  | cons c rest =>
    cases n with
    | zero => exact absurd hn (by omega)
    | succ n =>
      by_cases h : c = '\n'
      · simp [fgets_chunk, h]
      · simp [fgets_chunk, h]

theorem fgets_chunk_snd_length (n : Nat) (l : List Char) (hl : l ≠ [])
    (hn : 0 < n) : (fgets_chunk n l).2.length < l.length := by
  have happ := fgets_chunk_append n l
  have hfst := fgets_chunk_fst_ne_nil n l hl hn
  have hlen : (fgets_chunk n l).1.length + (fgets_chunk n l).2.length = l.length := by
    rw [← List.length_append, happ]
  have : 0 < (fgets_chunk n l).1.length := List.length_pos.mpr hfst
  omega

/-- The `while(fgets(...))` read loop of `print_file_content` (main.c lines
20-22): each chunk is written to standard output immediately; the loop ends
when `fgets` reads nothing (end of input).  The result is everything
written to standard output by the loop. -/
def read_all (content : List Char) : List Char :=
  if h : content = [] then []
  else (fgets_chunk 255 content).1 ++ read_all (fgets_chunk 255 content).2
termination_by content.length
decreasing_by
  exact fgets_chunk_snd_length 255 content h (by omega)

theorem read_all_id (content : List Char) : read_all content = content := by
  have key : ∀ n (l : List Char), l.length ≤ n → read_all l = l := by
    intro n
    induction n with
    | zero =>
      intro l h
      have : l = [] := List.length_eq_zero.mp (Nat.le_zero.mp h)
      subst this
      simp [read_all]
    | succ n ih =>
      intro l h
      by_cases he : l = []
      · subst he; simp [read_all]
      · rw [read_all]
        simp only [he, dite_false]
        have hlt := fgets_chunk_snd_length 255 l he (by omega)
        rw [ih _ (by omega)]
        exact fgets_chunk_append 255 l
  exact key content.length content (Nat.le_refl _)

/-- File-handle events of `print_file_content`: the `fopen` call (with its
success), and the `fclose` call. -/
inductive FEvent where
  | fopen (success : Bool)
  | fclose
deriving DecidableEq

/-- The diagnostic written by `fprintf(stderr, "Failed to open file: %s\n",
path)` (main.c line 25). -/
def fail_msg (path : List Char) : List Char :=
  ("Failed to open file: ").toList ++ path ++ ['\n']

/-- Embeds `print_file_content` (main.c lines 16-27).  `file` is the target
file's content when `fopen(path, "r")` succeeds, `none` when it fails.
Returned are the characters written to standard output, the characters
written to standard error, and the file-handle event trace in order. -/
def print_file_content (path : List Char) (file : Option (List Char)) :
    List Char × List Char × List FEvent :=
  match file with
  | some content => (read_all content, [], [FEvent.fopen true, FEvent.fclose])
  | none => ([], fail_msg path, [FEvent.fopen false])

/-- Observable result of one run of the process. -/
structure ProcResult where
  stdout : List Char
  stderr : List Char
  exitCode : Nat
  fsAfter : Option (List Char)
  events : List FEvent
deriving DecidableEq

/-- The two label lines printed by main.c lines 35 and 37. -/
def stdout_labels (argv0 : List Char) : List Char :=
  ("Runtime directory: ").toList ++ get_runtime_dir argv0 ++ ['\n'] ++
  ("Open file at path: ").toList ++ build_example_path (get_runtime_dir argv0) ++ ['\n']

/-- Embeds `main` (main.c lines 31-41), as `run_main` since Lean reserves the name `main`: resolve the runtime directory from
`argv[0]`, print it, build the target path with `snprintf`, print it, then
`print_file_content`.  The file is only ever opened with mode `"r"` and no
write call exists, so the file-system state after the run is the input
state; `main` has no `return` statement, so it returns 0 (C99 5.1.2.2.3). -/
def run_main (argv0 : List Char) (file : Option (List Char)) : ProcResult :=
  let dir := get_runtime_dir argv0
  let target := build_example_path dir
  let pfc := print_file_content target file
  { stdout := stdout_labels argv0 ++ pfc.1,
    stderr := pfc.2.1,
    exitCode := 0,
    fsAfter := file,
    events := pfc.2.2 }

/-- C1: for every invocation path containing at least one `/` separator —
written `a ++ '/' :: b` where `b` is the final separator-free segment —
`parent_dir` produces, in place, the path truncated at the last separator,
exclusive: the result is `a`. -/
theorem C1_parent_dir_strips_last_segment (a b : List Char) (hb : ('/') ∉ b) :
    parent_dir (a ++ '/' :: b) = a := by
  induction a with
  | nil => simp [parent_dir, hb]
  | cons c a ih =>
    have hmem : ('/') ∈ a ++ '/' :: b :=
      List.mem_append_right _ (List.mem_cons_self _ _)
    simp [parent_dir, hmem, ih]

theorem C1_witness :
    ('/') ∉ ("app").toList ∧
      parent_dir (("/usr/local/bin").toList ++ '/' :: ("app").toList) =
        ("/usr/local/bin").toList :=
  ⟨by decide, C1_parent_dir_strips_last_segment _ _ (by decide)⟩

/-- C4: for every invocation path containing no `/` separator, `parent_dir`
leaves the buffer unchanged, with no error signaled. -/
theorem C4_parent_dir_no_separator (path : List Char) (h : ('/') ∉ path) :
    parent_dir path = path := by
  induction path with
  | nil => rfl
  | cons c rest ih =>
    have h1 : ¬c = '/' := fun hc => h (hc ▸ List.mem_cons_self _ _)
    have h2 : ('/') ∉ rest := fun hm => h (List.mem_cons_of_mem _ hm)
    simp [parent_dir, h1, h2, ih h2]

theorem C4_witness :
    ('/') ∉ ("app").toList ∧ parent_dir (("app").toList) = ("app").toList :=
  ⟨by decide, C4_parent_dir_no_separator _ (by decide)⟩

/-- C5 counterexample: the claim "for every resolved runtime directory `d`
the target file path is `d ++ "/example.txt"`" fails on the code, because
`snprintf` bounds the result to 1023 characters: for the reachable
1012-character directory the stored target path is truncated. -/
theorem C5_counterexample :
    build_example_path (List.replicate 1012 'a') ≠
      List.replicate 1012 'a' ++ ("/example.txt").toList := by
  intro h
  have h2 := congrArg List.length h
  have h12 : (("/example.txt").toList).length = 12 := rfl
  simp only [build_example_path, PATH_BUFFER_SIZE, List.length_take, List.length_append,
    List.length_replicate, h12] at h2
  omega

/-- C5 (amended): for every resolved runtime directory `d` of at most 1011
characters — so that the formatted result fits `snprintf`'s 1023-character
bound — the target file path is `d` concatenated with a single `/` and the
fixed filename `example.txt`; in particular `/tmp` yields exactly
`/tmp/example.txt`. -/
theorem C5_target_path (dir : List Char) (h : dir.length ≤ 1011) :
    build_example_path dir = dir ++ ("/example.txt").toList := by
  apply List.take_of_length_le
  have h12 : (("/example.txt").toList).length = 12 := rfl
  simp [PATH_BUFFER_SIZE, h12]
  omega

theorem C5_witness :
    (("/tmp").toList).length ≤ 1011 ∧
      build_example_path (("/tmp").toList) =
        ("/tmp").toList ++ ("/example.txt").toList :=
  ⟨by decide, C5_target_path _ (by decide)⟩

/-- C2: when the target file exists, the standard output after the two
label lines reproduces the file content exactly — the chunks read by the
`fgets` loop are written verbatim, in order, until end of input — for any
content, in particular `hello\nworld\n`. -/
theorem C2_stdout_reproduces_content (argv0 content : List Char) :
    (run_main argv0 (some content)).stdout = stdout_labels argv0 ++ content := by
  simp [run_main, print_file_content, read_all_id]

/-- C3: when the target file cannot be opened, standard error is exactly
one diagnostic line naming the path, standard output carries no
file-content lines beyond the two labels, and nothing else happens for the
file; for directory `/tmp` the diagnostic is
`Failed to open file: /tmp/example.txt`. -/
theorem C3_open_failure (argv0 : List Char) :
    (run_main argv0 none).stderr =
        fail_msg (build_example_path (get_runtime_dir argv0)) ∧
      (run_main argv0 none).stdout = stdout_labels argv0 ∧
      (run_main (("/tmp/app").toList) none).stderr =
        ("Failed to open file: /tmp/example.txt\n").toList := by
  refine ⟨rfl, ?_, by decide⟩
  simp [run_main, print_file_content]

/-- C6: the process exits with success status on every input, including
when the file open fails. -/
theorem C6_exit_success (argv0 : List Char) (file : Option (List Char)) :
    (run_main argv0 file).exitCode = 0 := rfl

/-- C7: the copy of the invocation path into the fixed-size 1024-byte
directory buffer is not bounds-checked: there is an invocation path longer
than the buffer capacity for which the copy stores more bytes than the
buffer holds, writing past its end. -/
theorem C7_unchecked_copy_overflow :
    ∃ argv0 : List Char, PATH_BUFFER_SIZE < argv0.length ∧
      PATH_BUFFER_SIZE < get_runtime_dir_bytes_written argv0 PATH_BUFFER_SIZE := by
  refine ⟨List.replicate 1025 'a', ?_, ?_⟩ <;>
    simp only [get_runtime_dir_bytes_written, PATH_BUFFER_SIZE, List.length_replicate] <;>
    omega

/-- C8: on every execution of `print_file_content`, each successful file
open is matched by a release of the handle in its trace — in particular
every path on which the file was opened closes it before returning, and no
path leaks an open handle. -/
theorem C8_handle_released (path : List Char) (file : Option (List Char)) :
    ((print_file_content path file).2.2).count FEvent.fclose =
      ((print_file_content path file).2.2).count (FEvent.fopen true) := by
  cases file <;> rfl

/-- C9: the program is deterministic and idempotent: a run leaves the file
system it read unchanged, and a second run on the resulting state produces
an identical result (same standard output, standard error, exit code and
trace). -/
theorem C9_deterministic_idempotent (argv0 : List Char) (file : Option (List Char)) :
    (run_main argv0 file).fsAfter = file ∧
      run_main argv0 ((run_main argv0 file).fsAfter) = run_main argv0 file :=
  ⟨rfl, rfl⟩

/-- C10: a NUL-free line longer than the 255-character chunk limit is still
reproduced verbatim: the read loop delivers it as several consecutive
chunks whose concatenation equals the original line, so the bound is
invisible in the output. -/
theorem C10_long_line_verbatim (line : List Char) (hn : ('\n') ∉ line)
    (hz : Char.ofNat 0 ∉ line) (hlong : 255 < line.length) :
    read_all (line ++ ['\n']) = line ++ ['\n'] :=
  read_all_id _

set_option maxRecDepth 8192 in
theorem C10_witness :
    (('\n') ∉ List.replicate 300 'a' ∧ Char.ofNat 0 ∉ List.replicate 300 'a' ∧
        255 < (List.replicate 300 'a').length) ∧
      read_all (List.replicate 300 'a' ++ ['\n']) = List.replicate 300 'a' ++ ['\n'] :=
  ⟨⟨by decide, by decide, by decide⟩,
    C10_long_line_verbatim _ (by decide) (by decide) (by decide)⟩
